import Mathlib

/-!
# Shallow embedding of the Invoicer dashboard core (src/app.py)

The embedded parts are the ones with actual data semantics:

* the load/projection step (app.py lines 37-42): `VISIBLE_COLUMNS`
  projection with its `KeyError` on missing columns, the `Date Created`
  default, `pd.to_datetime(..., errors="coerce")` nulls, and the derived
  `Invoice Age (Days)` column;
* the filter logic (lines 62-71): status/product `isin`, `Date Created
  .between` (which is `False` on a null date, as for pandas `NaT`), and
  the lower-cased substring search over customer name/email;
* the monthly revenue aggregation (lines 84-89): `to_period("M")`
  month labels (the string `"NaT"` for a null date), `groupby` with its
  ascending sort on the label, per-group `Price` sum;
* the aging buckets (lines 93-102);
* the `Save Changes to Sheet` handler (lines 113-118): clear, append the
  header of the editor view (the age column dropped), append each row;
* the CSV export (line 185): all columns of `filtered_df`, age included.

Dates are calendar triples; order and day arithmetic go through a serial
day number (`Date.serial`, the standard civil-from-days algorithm), which
matches pandas `Timestamp` ordering and `timedelta .days` on the
midnight-based dates the app manipulates.  Prices are integers (the exact
arithmetic of the sums is what the claims are about, not float rounding).
-/

/-- A calendar date as stored in the `Date Created` column once parsed. -/
structure Date where
  year : Int
  month : Int
  day : Int
deriving DecidableEq, Repr

/-- Serial day number (days since 1970-01-01), the civil-from-days
algorithm.  Pandas timestamps order and subtract by exactly this count for
midnight dates. -/
def Date.serial (dt : Date) : Int :=
  let y : Int := if dt.month ≤ 2 then dt.year - 1 else dt.year
  let era : Int := y.fdiv 400
  let yoe : Int := y - era * 400
  let mp : Int := (dt.month + 9) % 12
  let doy : Int := (153 * mp + 2).fdiv 5 + dt.day - 1
  let doe : Int := yoe * 365 + yoe.fdiv 4 - yoe.fdiv 100 + doy
  era * 146097 + doe - 719468

/-- One row of the in-memory dataframe after load: the eight
`VISIBLE_COLUMNS` fields plus the derived `Invoice Age (Days)` column.
`dateCreated = none` is pandas `NaT` (unparsable date), in which case the
age is `NaN`, embedded as `none`. -/
structure Row where
  customerName : String
  customerEmail : String
  product : String
  description : String
  price : Int
  invoiceLink : String
  status : String
  dateCreated : Option Date
  invoiceAge : Option Int
deriving DecidableEq, Repr

/-- The filter inputs of the `Advanced Filters` expander: the text search
(lower-cased by the handler), the status and product multiselects, and the
two ends of the date range widget. -/
structure Criteria where
  searchText : String
  statusFilter : List String
  productFilter : List String
  dateLo : Date
  dateHi : Date
deriving Repr

/-- `df["Status"].isin(status_filter) & df["Product"].isin(product_filter)
& df["Date Created"].between(lo, hi)`: the boolean mask of app.py lines
62-66.  For a `NaT` date `between` is `False`, so a null-date row never
passes the mask. -/
def rowPassesMask (c : Criteria) (r : Row) : Bool :=
  c.statusFilter.contains r.status &&
  c.productFilter.contains r.product &&
  (match r.dateCreated with
   | none => false
   | some d => decide (c.dateLo.serial ≤ d.serial) && decide (d.serial ≤ c.dateHi.serial))

/-- Python `str.lower` over the characters of a string (character-level
recursion so that evaluation is structural). -/
def strLower (s : String) : String := ⟨s.data.map Char.toLower⟩

/-- Python string truthiness: the string is empty. -/
def strIsEmpty (s : String) : Bool := s.data.isEmpty

/-- The text-search refinement of lines 67-71: case-insensitive substring
match of the (already lower-cased) query against customer name or email. -/
def searchHit (q : String) (r : Row) : Bool :=
  decide (List.IsInfix q.data (strLower r.customerName).data) ||
  decide (List.IsInfix q.data (strLower r.customerEmail).data)

/-- `filtered_df` of app.py lines 62-71: mask filter, then, when the
query is non-empty (Python truthiness of the lower-cased input string),
the substring search refinement. -/
def filteredDf (df : List Row) (c : Criteria) : List Row :=
  if strIsEmpty (strLower c.searchText) then df.filter (rowPassesMask c)
  else (df.filter (rowPassesMask c)).filter (searchHit (strLower c.searchText))

example : Date.serial ⟨1970, 1, 1⟩ = 0 := by decide
example : Date.serial ⟨1970, 1, 8⟩ = 7 := by decide
example : Date.serial ⟨2024, 3, 1⟩ - Date.serial ⟨2024, 2, 28⟩ = 2 := by decide

/-! ## Load (app.py lines 35-42) -/

/-- The eight schema columns, in dataframe order (app.py line 14). -/
def VISIBLE_COLUMNS : List String :=
  ["Customer name", "Customer email", "Product", "Product Description",
   "Price", "Invoice Link", "Status", "Date Created"]

/-- One raw record from `worksheet.get_all_records()`: the field values a
record supplies for the schema columns.  Which of these columns actually
exist in the sheet is governed by `RawTable.header`; `date` is the parsed
value of the `Date Created` cell, `none` when `pd.to_datetime` coerces it
to `NaT`. -/
structure RawRec where
  name : String
  email : String
  product : String
  descr : String
  price : Int
  link : String
  status : String
  date : Option Date
deriving DecidableEq, Repr

/-- A worksheet as fetched: its header row and its records. -/
structure RawTable where
  header : List String
  recs : List RawRec
deriving Repr

/-- Lines 37-42 of app.py: if `"Date Created"` is absent it is added with
the current date for every record; then `df = df[VISIBLE_COLUMNS]` projects,
raising a `KeyError` naming the columns not in the index when any visible
column is missing; then the date column is parsed (`errors="coerce"`) and
`Invoice Age (Days) = (datetime.today() - df["Date Created"]).dt.days` is
derived (`none`, pandas `NaN`, for a null date; for midnight dates the
`.days` floor is exactly the difference of serial day numbers). -/
def load (today : Date) (t : RawTable) : Except (List String) (List Row) :=
  let hasDate := t.header.contains "Date Created"
  let headerFull := if hasDate then t.header else t.header ++ ["Date Created"]
  let missing := VISIBLE_COLUMNS.filter (fun c => !(headerFull.contains c))
  if missing.isEmpty then
    .ok (t.recs.map (fun r =>
      let d : Option Date := if hasDate then r.date else some today
      { customerName := r.name
        customerEmail := r.email
        product := r.product
        description := r.descr
        price := r.price
        invoiceLink := r.link
        status := r.status
        dateCreated := d
        invoiceAge := d.map (fun dd => today.serial - dd.serial) }))
  else
    .error missing

/-! ## Monthly revenue (app.py lines 84-89)

`chart_df["Month"] = chart_df["Date Created"].dt.to_period("M").astype(str)`
labels each row with `"YYYY-MM"` (the string `"NaT"` for a null date), and
`groupby("Month")["Price"].sum()` sums per label with the group keys sorted
ascending.  Group keys here are the underlying `(year, month)` pairs
(`none` for `NaT`); on the pandas `Timestamp` year range (1677-2262, always
four digits) the lexicographic order of the label strings is exactly the
`(year, month)` order with `"NaT"` last, which is `keyLE` below. -/

/-- The `(year, month)` period of the date of a row, `none` for `NaT`. -/
def rowMonthKey (r : Row) : Option (Int × Int) :=
  r.dateCreated.map (fun d => (d.year, d.month))

/-- Order of the month-label group keys: `(year, month)` lexicographic,
`none` (the `"NaT"` label) after every real month. -/
def keyLE : Option (Int × Int) → Option (Int × Int) → Prop
  | none, none => True
  | some _, none => True
  | none, some _ => False
  | some p, some q => p.1 < q.1 ∨ (p.1 = q.1 ∧ p.2 ≤ q.2)

instance keyLE.instDecRel : DecidableRel keyLE := fun a b =>
  match a, b with
  | none, none => isTrue trivial
  | some _, none => isTrue trivial
  | none, some _ => isFalse (fun h => h)
  | some p, some q => inferInstanceAs (Decidable (p.1 < q.1 ∨ (p.1 = q.1 ∧ p.2 ≤ q.2)))

/-- The month label string: `str(period)` — `"YYYY-MM"`, or `"NaT"`. -/
def monthLabel : Option (Int × Int) → String
  | none => "NaT"
  | some p => toString p.1 ++ "-" ++ (if p.2 < 10 then "0" else "") ++ toString p.2

/-- Per-group `Price` sum: total price of the rows carrying month key `k`. -/
def groupTotal (df : List Row) (k : Option (Int × Int)) : Int :=
  ((df.filter (fun r => rowMonthKey r == k)).map Row.price).sum

/-- The distinct month keys of the frame, sorted as `groupby` sorts them. -/
def monthKeysSorted (df : List Row) : List (Option (Int × Int)) :=
  ((df.map rowMonthKey).dedup).insertionSort keyLE

/-- `monthly_sales`: one `(label, total)` pair per distinct month key, in
ascending label order. -/
def monthlySales (df : List Row) : List (String × Int) :=
  (monthKeysSorted df).map (fun k => (monthLabel k, groupTotal df k))

/-! ## Aging buckets (app.py lines 93-96)

Pandas comparisons against `NaN` are `False`, so a null-age row falls in
no bucket. -/

/-- `filtered_df["Invoice Age (Days)"] <= n` for one row. -/
def ageLeB (r : Row) (n : Int) : Bool :=
  match r.invoiceAge with
  | none => false
  | some a => decide (a ≤ n)

/-- `filtered_df["Invoice Age (Days)"] > n` for one row. -/
def ageGtB (r : Row) (n : Int) : Bool :=
  match r.invoiceAge with
  | none => false
  | some a => decide (n < a)

/-- `age_7 = filtered_df[filtered_df["Invoice Age (Days)"] <= 7]`. -/
def age_7 (v : List Row) : List Row := v.filter (fun r => ageLeB r 7)

/-- `age_21`: age strictly above 7 and at most 21. -/
def age_21 (v : List Row) : List Row := v.filter (fun r => ageGtB r 7 && ageLeB r 21)

/-- `age_30`: age strictly above 21 and at most 30. -/
def age_30 (v : List Row) : List Row := v.filter (fun r => ageGtB r 21 && ageLeB r 30)

/-- `age_overdue`: age strictly above 30. -/
def age_overdue (v : List Row) : List Row := v.filter (fun r => ageGtB r 30)

/-! ## Save handler (lines 110-118) and CSV export (line 185) -/

/-- Two-digit zero padding for month/day rendering. -/
def pad2 (n : Int) : String := (if n < 10 then "0" else "") ++ toString n

/-- `str()` of a `Date Created` cell as `append_row` serializes it. -/
def dateCellString : Option Date → String
  | none => "NaT"
  | some d => toString d.year ++ "-" ++ pad2 d.month ++ "-" ++ pad2 d.day ++ " 00:00:00"

/-- `row.tolist()` of one row of `filtered_display` (the editor view: the
eight visible columns, the derived age column dropped). -/
def displayCells (r : Row) : List String :=
  [r.customerName, r.customerEmail, r.product, r.description,
   toString r.price, r.invoiceLink, r.status, dateCellString r.dateCreated]

/-- The columns of `filtered_df`: the eight visible columns plus the
derived age column appended at line 42. -/
def dfColumns : List String := VISIBLE_COLUMNS ++ ["Invoice Age (Days)"]

/-- `filtered_df.drop(columns=["Invoice Age (Days)"]).columns.tolist()`:
the header row the save handler appends first. -/
def editorColumns : List String := dfColumns.filter (fun c => !(c == "Invoice Age (Days)"))

/-- The worksheet content after the `Save Changes to Sheet` handler:
`worksheet.clear()`, then `append_row` of the editor header, then one
`append_row` per row of the editor view. -/
def sheetAfterSave (display : List Row) : List (List String) :=
  editorColumns :: display.map displayCells

/-- A `Date Created` cell as `to_csv` renders it (empty for `NaT`). -/
def csvDateCell : Option Date → String
  | none => ""
  | some d => toString d.year ++ "-" ++ pad2 d.month ++ "-" ++ pad2 d.day

/-- An `Invoice Age (Days)` cell as `to_csv` renders it (empty for `NaN`). -/
def ageCell : Option Int → String
  | none => ""
  | some a => toString a

/-- One CSV data line: all nine columns of `filtered_df`, in order. -/
def csvCells (r : Row) : List String :=
  [r.customerName, r.customerEmail, r.product, r.description,
   toString r.price, r.invoiceLink, r.status, csvDateCell r.dateCreated,
   ageCell r.invoiceAge]

/-- `csv_data = filtered_df.to_csv(index=False)`: header line then one
line per row of the filtered view. -/
def csvExport (v : List Row) : List (List String) := dfColumns :: v.map csvCells

/-! ## Spec-side definition used for schema-matching comparison -/

/-- Whitespace trimming at both ends of a string (character-level
recursion so that evaluation is structural). -/
def strTrim (s : String) : String :=
  ⟨((s.data.dropWhile Char.isWhitespace).reverse.dropWhile Char.isWhitespace).reverse⟩

/-- Modelled from the spec: the header-name matching rule of the load
contract is a "case-insensitive, whitespace-trimmed match on header
names".  The code itself (`df[VISIBLE_COLUMNS]`) matches header names
exactly; this definition exists to state the comparison. -/
def spec_colMatches (h c : String) : Bool :=
  (strLower (strTrim h)).data == (strLower (strTrim c)).data

/-! ## Concrete sample data for witnesses and counterexamples -/

/-- A reference date used by concrete instances. -/
def today0 : Date := ⟨2024, 6, 1⟩

/-- A paid, dated invoice row. -/
def rowDated : Row :=
  { customerName := "Ada", customerEmail := "ada@example.com",
    product := "Widget", description := "One widget", price := 100,
    invoiceLink := "http://inv/1", status := "Paid",
    dateCreated := some ⟨2024, 1, 5⟩, invoiceAge := some 10 }

/-- A pending invoice row whose `Date Created` failed to parse (`NaT`). -/
def rowNullDate : Row :=
  { customerName := "Bob", customerEmail := "bob@example.com",
    product := "Widget", description := "Another widget", price := 50,
    invoiceLink := "http://inv/2", status := "Pending",
    dateCreated := none, invoiceAge := none }

/-- A pending, dated invoice row (used by the save-handler analysis). -/
def rowPending : Row :=
  { customerName := "Cleo", customerEmail := "cleo@example.com",
    product := "Widget", description := "A third widget", price := 25,
    invoiceLink := "http://inv/3", status := "Pending",
    dateCreated := some ⟨2024, 1, 6⟩, invoiceAge := some 9 }

/-- A loaded table holding a dated row and a null-date row. -/
def dfMixed : List Row := [rowDated, rowNullDate]

/-- Criteria with the full distinct status/product sets of `dfMixed`, an
all-covering date range, and an empty search text. -/
def cFull : Criteria :=
  { searchText := "", statusFilter := ["Paid", "Pending"],
    productFilter := ["Widget"], dateLo := ⟨2024, 1, 1⟩, dateHi := ⟨2024, 12, 31⟩ }

/-- A store table holding a paid row and a pending row. -/
def dfStore : List Row := [rowDated, rowPending]

/-- Criteria selecting only the `Paid` status. -/
def cPaidOnly : Criteria :=
  { searchText := "", statusFilter := ["Paid"],
    productFilter := ["Widget"], dateLo := ⟨2024, 1, 1⟩, dateHi := ⟨2024, 12, 31⟩ }

/-- Criteria whose date range is given reversed (lower bound after the
upper bound). -/
def cReversed : Criteria :=
  { searchText := "", statusFilter := ["Paid"],
    productFilter := ["Widget"], dateLo := ⟨2024, 12, 31⟩, dateHi := ⟨2024, 1, 1⟩ }

/-- `cReversed` with the range normalized by swapping the two bounds. -/
def cNormalized : Criteria :=
  { searchText := "", statusFilter := ["Paid"],
    productFilter := ["Widget"], dateLo := ⟨2024, 1, 1⟩, dateHi := ⟨2024, 12, 31⟩ }

/-- A raw record used inside raw worksheet instances. -/
def rawRec0 : RawRec :=
  ⟨"Ada", "ada@example.com", "Widget", "One widget", 100, "http://inv/1", "Paid",
   some ⟨2024, 1, 5⟩⟩

/-- A raw worksheet whose header lacks the `Date Created` column. -/
def rawNoDateCol : RawTable :=
  { header := ["Customer name", "Customer email", "Product", "Product Description",
               "Price", "Invoice Link", "Status"],
    recs := [rawRec0] }

/-- A raw worksheet whose header lacks the `Status` column. -/
def rawNoStatusCol : RawTable :=
  { header := ["Customer name", "Customer email", "Product", "Product Description",
               "Price", "Invoice Link", "Date Created"],
    recs := [rawRec0] }

/-- A row with a given derived age and no other distinguishing data,
used to exercise the aging buckets. -/
def agedRow (a : Option Int) : Row :=
  { customerName := "Ada", customerEmail := "ada@example.com",
    product := "Widget", description := "One widget", price := 100,
    invoiceLink := "http://inv/1", status := "Paid",
    dateCreated := none, invoiceAge := a }

/-! ## Helper lemmas -/

theorem filter_idem {α : Type} (p : α → Bool) (l : List α) :
    (l.filter p).filter p = l.filter p := by
  induction l with
  | nil => rfl
  | cons a l ih => by_cases h : p a <;> simp [List.filter_cons, h, ih]

theorem filter_swap {α : Type} (p q : α → Bool) (l : List α) :
    (l.filter p).filter q = (l.filter q).filter p := by
  rw [List.filter_filter, List.filter_filter]
  apply List.filter_congr
  intro x _
  exact Bool.and_comm _ _

theorem mem_filteredDf_base {df : List Row} {c : Criteria} {r : Row}
    (h : r ∈ filteredDf df c) : r ∈ df.filter (rowPassesMask c) := by
  unfold filteredDf at h
  split at h
  · exact h
  · exact List.mem_of_mem_filter h

theorem mem_filteredDf_isSome {df : List Row} {c : Criteria} {r : Row}
    (h : r ∈ filteredDf df c) : r.dateCreated.isSome := by
  have hmask := (List.mem_filter.mp (mem_filteredDf_base h)).2
  rcases hd : r.dateCreated with _ | d
  · simp [rowPassesMask, hd] at hmask
  · rfl

/-! ## Claim theorems -/

/-- Claim C9: filtering is idempotent — applying `filtered_df` to the
already-filtered view with the same criteria yields exactly the same view
(same records, same order). -/
theorem filteredDf_idempotent (df : List Row) (c : Criteria) :
    filteredDf (filteredDf df c) c = filteredDf df c := by
  unfold filteredDf
  by_cases hq : strIsEmpty (strLower c.searchText)
  · rw [if_pos hq, if_pos hq]
    exact filter_idem _ _
  · rw [if_neg hq, if_neg hq]
    rw [filter_swap (searchHit (strLower c.searchText)) (rowPassesMask c)
          (List.filter (rowPassesMask c) df),
        filter_idem (rowPassesMask c) df, filter_idem]

/-- Claim C10: the CSV export keeps all nine dataframe columns — the
eight schema columns plus the derived `Invoice Age (Days)` column — while
the save handler writes the editor view, whose header is only the eight
schema columns, the derived column having been dropped before editing. -/
theorem csv_keeps_age_column_save_drops_it (v w : List Row) :
    (csvExport v).head? = some (VISIBLE_COLUMNS ++ ["Invoice Age (Days)"]) ∧
    (sheetAfterSave w).head? = some VISIBLE_COLUMNS ∧
    editorColumns = VISIBLE_COLUMNS ∧
    (∀ line ∈ csvExport v, line.length = 9) ∧
    (∀ line ∈ sheetAfterSave w, line.length = 8) := by
  refine ⟨rfl, congrArg some (by decide), by decide, ?_, ?_⟩
  · intro line hline
    rcases List.mem_cons.mp hline with h | h
    · subst h; decide
    · obtain ⟨r, -, rfl⟩ := List.mem_map.mp h
      rfl
  · intro line hline
    rcases List.mem_cons.mp hline with h | h
    · subst h; decide
    · obtain ⟨r, -, rfl⟩ := List.mem_map.mp h
      rfl

/-- Claim C3 counterexample: a record with null `dateCreated` that meets
the status-set, product-set and text-search conditions is nevertheless
absent from the filtered view, so the date-range condition is enforced
against it, contrary to the claim. -/
theorem null_date_row_not_retained :
    rowNullDate ∈ dfMixed ∧
    cFull.statusFilter.contains rowNullDate.status = true ∧
    cFull.productFilter.contains rowNullDate.product = true ∧
    cFull.searchText = "" ∧
    rowNullDate ∉ filteredDf dfMixed cFull := by decide

/-- Claim C3 (amended): a record whose `dateCreated` is null always fails
the date-range part of the mask (`NaT.between` is false), so it is
excluded from the filtered view no matter what the status-set,
product-set and text-search criteria say. -/
theorem null_date_row_excluded (df : List Row) (c : Criteria) (r : Row)
    (hnull : r.dateCreated = none) : r ∉ filteredDf df c := by
  intro hmem
  have hmask := (List.mem_filter.mp (mem_filteredDf_base hmem)).2
  simp [rowPassesMask, hnull] at hmask

/-- Witness for `null_date_row_excluded` at a concrete table and
criteria. -/
theorem null_date_row_excluded_witness :
    rowNullDate ∉ filteredDf dfMixed cFull :=
  null_date_row_excluded dfMixed cFull rowNullDate rfl

/-- Claim C7 counterexample: with the date range given reversed the
filter yields the empty view, not the view of the swap-normalized range,
so reversed ranges are not normalized. -/
theorem reversed_range_not_normalized :
    cNormalized.dateLo = cReversed.dateHi ∧
    cNormalized.dateHi = cReversed.dateLo ∧
    cReversed.dateHi.serial < cReversed.dateLo.serial ∧
    filteredDf [rowDated] cReversed = [] ∧
    filteredDf [rowDated] cNormalized = [rowDated] ∧
    filteredDf [rowDated] cReversed ≠ filteredDf [rowDated] cNormalized := by
  decide

/-- Claim C7 (amended): a reversed date range raises no exception — the
filter is total — but it is applied as given: `between` with a lower
bound strictly above the upper bound rejects every record, so the
filtered view is empty. -/
theorem reversed_range_empty_view (df : List Row) (c : Criteria)
    (h : c.dateHi.serial < c.dateLo.serial) : filteredDf df c = [] := by
  have hbase : df.filter (rowPassesMask c) = [] := by
    rw [List.filter_eq_nil_iff]
    intro r _
    rcases hd : r.dateCreated with _ | d
    · simp [rowPassesMask, hd]
    · simp only [rowPassesMask, hd, Bool.and_eq_true, decide_eq_true_eq]
      rintro ⟨⟨-, -⟩, h1, h2⟩
      omega
  unfold filteredDf
  split <;> simp [hbase]

/-- Witness for `reversed_range_empty_view` at a concrete table and
reversed criteria. -/
theorem reversed_range_empty_view_witness :
    filteredDf [rowDated] cReversed = [] :=
  reversed_range_empty_view [rowDated] cReversed (by decide)

/-- Claim C5: boundary policy of the aging buckets — age 7 classifies as
fresh (`age_7`), ages 8 and 21 as warn1 (`age_21`), ages 22 and 30 as
warn2 (`age_30`), age 31 as overdue (`age_overdue`), and every negative
age (future-dated invoice) as fresh. -/
theorem aging_bucket_boundaries (v : List Row) (r : Row) (hv : r ∈ v) :
    (r.invoiceAge = some 7 →
      r ∈ age_7 v ∧ r ∉ age_21 v ∧ r ∉ age_30 v ∧ r ∉ age_overdue v) ∧
    (r.invoiceAge = some 8 →
      r ∉ age_7 v ∧ r ∈ age_21 v ∧ r ∉ age_30 v ∧ r ∉ age_overdue v) ∧
    (r.invoiceAge = some 21 →
      r ∉ age_7 v ∧ r ∈ age_21 v ∧ r ∉ age_30 v ∧ r ∉ age_overdue v) ∧
    (r.invoiceAge = some 22 →
      r ∉ age_7 v ∧ r ∉ age_21 v ∧ r ∈ age_30 v ∧ r ∉ age_overdue v) ∧
    (r.invoiceAge = some 30 →
      r ∉ age_7 v ∧ r ∉ age_21 v ∧ r ∈ age_30 v ∧ r ∉ age_overdue v) ∧
    (r.invoiceAge = some 31 →
      r ∉ age_7 v ∧ r ∉ age_21 v ∧ r ∉ age_30 v ∧ r ∈ age_overdue v) ∧
    (∀ a : Int, a < 0 → r.invoiceAge = some a →
      r ∈ age_7 v ∧ r ∉ age_21 v ∧ r ∉ age_30 v ∧ r ∉ age_overdue v) := by
  refine ⟨?_, ?_, ?_, ?_, ?_, ?_, ?_⟩ <;>
    first
    | (intro h
       simp [age_7, age_21, age_30, age_overdue, List.mem_filter, ageLeB, ageGtB, h, hv])
    | (intro a ha h
       simp [age_7, age_21, age_30, age_overdue, List.mem_filter, ageLeB, ageGtB, h, hv]
       omega)

/-- Witness for `aging_bucket_boundaries`: a concrete row of age 7 in a
concrete view lands in the fresh bucket. -/
theorem aging_bucket_boundaries_witness :
    agedRow (some 7) ∈ age_7 [agedRow (some 7)] :=
  ((aging_bucket_boundaries [agedRow (some 7)] (agedRow (some 7))
      (List.mem_cons_self _ _)).1 rfl).1

/-- Claim C6: the four aging buckets partition the non-null-age records
of every view — a null-age record is in no bucket, a non-null-age record
is in exactly one, and the four bucket sizes sum to the number of
non-null-age records of the view. -/
theorem aging_buckets_partition (v : List Row) :
    ((age_7 v).length + (age_21 v).length + (age_30 v).length +
        (age_overdue v).length
      = (v.filter (fun r => r.invoiceAge.isSome)).length) ∧
    (∀ r ∈ v, r.invoiceAge = none →
      r ∉ age_7 v ∧ r ∉ age_21 v ∧ r ∉ age_30 v ∧ r ∉ age_overdue v) ∧
    (∀ r ∈ v, r.invoiceAge.isSome →
      (r ∈ age_7 v ∧ r ∉ age_21 v ∧ r ∉ age_30 v ∧ r ∉ age_overdue v) ∨
      (r ∉ age_7 v ∧ r ∈ age_21 v ∧ r ∉ age_30 v ∧ r ∉ age_overdue v) ∨
      (r ∉ age_7 v ∧ r ∉ age_21 v ∧ r ∈ age_30 v ∧ r ∉ age_overdue v) ∨
      (r ∉ age_7 v ∧ r ∉ age_21 v ∧ r ∉ age_30 v ∧ r ∈ age_overdue v)) := by
  refine ⟨?_, ?_, ?_⟩
  · induction v with
    | nil => rfl
    | cons r v ih =>
      rcases h : r.invoiceAge with _ | a
      · simpa [age_7, age_21, age_30, age_overdue, List.filter_cons, ageLeB, ageGtB,
               h] using ih
      · rcases le_or_lt a 7 with h7 | h7
        · have n1 : ¬ (7 : Int) < a := by omega
          have h21 : a ≤ 21 := by omega
          have h30 : a ≤ 30 := by omega
          have n2 : ¬ (21 : Int) < a := by omega
          have n3 : ¬ (30 : Int) < a := by omega
          simp [age_7, age_21, age_30, age_overdue, List.filter_cons, ageLeB, ageGtB,
                h, h7, h21, h30, n1, n2, n3] at ih ⊢
          omega
        · rcases le_or_lt a 21 with h21 | h21
          · have n1 : ¬ a ≤ 7 := by omega
            have h30 : a ≤ 30 := by omega
            have n2 : ¬ (21 : Int) < a := by omega
            have n3 : ¬ (30 : Int) < a := by omega
            simp [age_7, age_21, age_30, age_overdue, List.filter_cons, ageLeB, ageGtB,
                  h, h7, h21, h30, n1, n2, n3] at ih ⊢
            omega
          · rcases le_or_lt a 30 with h30 | h30
            · have n1 : ¬ a ≤ 7 := by omega
              have n2 : ¬ a ≤ 21 := by omega
              have n3 : ¬ (30 : Int) < a := by omega
              simp [age_7, age_21, age_30, age_overdue, List.filter_cons, ageLeB,
                    ageGtB, h, h7, h21, h30, n1, n2, n3] at ih ⊢
              omega
            · have n1 : ¬ a ≤ 7 := by omega
              have n2 : ¬ a ≤ 21 := by omega
              have n3 : ¬ a ≤ 30 := by omega
              simp [age_7, age_21, age_30, age_overdue, List.filter_cons, ageLeB,
                    ageGtB, h, h7, h21, h30, n1, n2, n3] at ih ⊢
              omega
  · intro r hr hnone
    simp [age_7, age_21, age_30, age_overdue, List.mem_filter, ageLeB, ageGtB, hnone]
  · intro r hr hsome
    obtain ⟨a, ha⟩ := Option.isSome_iff_exists.mp hsome
    simp [age_7, age_21, age_30, age_overdue, List.mem_filter, ageLeB, ageGtB, ha, hr]
    omega

/-- Claim C2 counterexample: with the full distinct status/product sets
of the table, a date range covering its (single) non-null date, and
empty search text, the filtered view of a table holding a null-date
record is not the full table: the null-date record is dropped. -/
theorem full_criteria_view_not_whole_table :
    cFull.statusFilter = (dfMixed.map Row.status).dedup ∧
    cFull.productFilter = (dfMixed.map Row.product).dedup ∧
    cFull.searchText = "" ∧
    cFull.dateLo.serial ≤ Date.serial ⟨2024, 1, 5⟩ ∧
    Date.serial ⟨2024, 1, 5⟩ ≤ cFull.dateHi.serial ∧
    filteredDf dfMixed cFull = [rowDated] ∧
    filteredDf dfMixed cFull ≠ dfMixed := by decide

/-- Claim C2 (amended): with status and product sets covering every value
present, a date range covering every non-null date present, and empty
search text, the filtered view is the subsequence of records whose
`dateCreated` is non-null, in original order — equal to the full table
exactly when no null-date record exists. -/
theorem full_criteria_keeps_nonnull_rows (df : List Row) (c : Criteria)
    (hs : ∀ r ∈ df, r.status ∈ c.statusFilter)
    (hp : ∀ r ∈ df, r.product ∈ c.productFilter)
    (hd : ∀ r ∈ df, r.dateCreated.all
        (fun d => decide (c.dateLo.serial ≤ d.serial) &&
                  decide (d.serial ≤ c.dateHi.serial)) = true)
    (hq : c.searchText = "") :
    filteredDf df c = df.filter (fun r => r.dateCreated.isSome) := by
  have hempty : strIsEmpty (strLower c.searchText) = true := by rw [hq]; rfl
  unfold filteredDf
  rw [if_pos hempty]
  apply List.filter_congr
  intro r hr
  rcases hdate : r.dateCreated with _ | d
  · simp [rowPassesMask, hdate]
  · have h1 := hs r hr
    have h2 := hp r hr
    have h3 := hd r hr
    rw [hdate] at h3
    simp only [Option.all_some, Bool.and_eq_true, decide_eq_true_eq] at h3
    simp [rowPassesMask, hdate, List.contains, List.elem_iff, h1, h2, h3.1, h3.2]

/-- Witness for `full_criteria_keeps_nonnull_rows` at a concrete table
and criteria. -/
theorem full_criteria_keeps_nonnull_rows_witness :
    filteredDf dfMixed cFull = dfMixed.filter (fun r => r.dateCreated.isSome) :=
  full_criteria_keeps_nonnull_rows dfMixed cFull (by decide) (by decide)
    (by decide) rfl

/-- Claim C8 counterexample: a raw input missing the `Date Created`
column — one of the eight required columns, with no case-insensitive
whitespace-trimmed match in the header — does not fail: the load
defaults the column to the current date and produces a table. -/
theorem missing_date_created_loads :
    "Date Created" ∈ VISIBLE_COLUMNS ∧
    rawNoDateCol.header.all (fun h => !(spec_colMatches h "Date Created")) = true ∧
    (load today0 rawNoDateCol).isOk = true := by decide

/-- Claim C8 (amended): a raw input whose header has no case-insensitive
whitespace-trimmed match — hence no exact match — for a required column
other than `Date Created` (in particular `Status`) fails to load with an
error naming that missing column, and produces no table; a missing
`Date Created` column alone is instead defaulted (see the
counterexample). -/
theorem missing_column_fails_load (today : Date) (t : RawTable) (col : String)
    (hcol : col ∈ VISIBLE_COLUMNS) (hne : ¬ col = "Date Created")
    (hmiss : t.header.all (fun h => !(spec_colMatches h col)) = true) :
    ∃ missing, load today t = .error missing ∧ col ∈ missing := by
  have hnotmem : col ∉ t.header := by
    intro hmem
    have := (List.all_eq_true.mp hmiss) col hmem
    simp [spec_colMatches] at this
  have hfullne : ∀ h ∈ (if t.header.contains "Date Created" then t.header
      else t.header ++ ["Date Created"]), ¬ h = col := by
    intro h hmem heq
    subst heq
    split at hmem
    · exact hnotmem hmem
    · rcases List.mem_append.mp hmem with h1 | h1
      · exact hnotmem h1
      · simp at h1
        exact hne h1
  have hcontains : (if t.header.contains "Date Created" then t.header
      else t.header ++ ["Date Created"]).contains col = false := by
    by_contra hcon
    have : (if t.header.contains "Date Created" then t.header
        else t.header ++ ["Date Created"]).contains col = true := by
      revert hcon
      cases (if t.header.contains "Date Created" then t.header
        else t.header ++ ["Date Created"]).contains col <;> simp
    have hmem : col ∈ (if t.header.contains "Date Created" then t.header
        else t.header ++ ["Date Created"]) := by
      simpa [List.contains, List.elem_iff] using this
    exact hfullne col hmem rfl
  have hmemmiss : col ∈ VISIBLE_COLUMNS.filter
      (fun c => !((if t.header.contains "Date Created" then t.header
        else t.header ++ ["Date Created"]).contains c)) := by
    rw [List.mem_filter]
    exact ⟨hcol, by rw [hcontains]; rfl⟩
  have hnonempty : (VISIBLE_COLUMNS.filter
      (fun c => !((if t.header.contains "Date Created" then t.header
        else t.header ++ ["Date Created"]).contains c))).isEmpty = false := by
    rcases hcase : VISIBLE_COLUMNS.filter
        (fun c => !((if t.header.contains "Date Created" then t.header
          else t.header ++ ["Date Created"]).contains c)) with _ | ⟨a, l⟩
    · rw [hcase] at hmemmiss
      exact absurd hmemmiss (List.not_mem_nil col)
    · rfl
  refine ⟨_, ?_, hmemmiss⟩
  unfold load
  simp only [hnonempty, Bool.false_eq_true, if_false]

/-- Witness for `missing_column_fails_load`: a concrete worksheet whose
header lacks `Status` fails to load with `Status` among the columns the
error names. -/
theorem missing_column_fails_load_witness :
    ∃ missing, load today0 rawNoStatusCol = .error missing ∧ "Status" ∈ missing :=
  missing_column_fails_load today0 rawNoStatusCol "Status" (by decide) (by decide)
    (by decide)

/-- Claim C1, evaluated at a failing input: the save handler writes the
filtered view, not the full table.  With the Paid-only filter active on a
store holding a Paid row and a Pending row, saving rewrites the sheet to
the header plus the single Paid row, and the cells of the Pending record
— in the store but outside the filter — are gone. -/
theorem save_writes_filtered_subset :
    rowPending ∈ dfStore ∧
    rowPending ∉ filteredDf dfStore cPaidOnly ∧
    sheetAfterSave (filteredDf dfStore cPaidOnly)
      = [VISIBLE_COLUMNS, displayCells rowDated] ∧
    displayCells rowPending ∉ sheetAfterSave (filteredDf dfStore cPaidOnly) := by
  decide

theorem keyLE_total : ∀ a b : Option (Int × Int), keyLE a b ∨ keyLE b a := by
  intro a b
  rcases a with _ | ⟨y1, m1⟩ <;> rcases b with _ | ⟨y2, m2⟩ <;> (simp [keyLE]; try omega)

instance keyLE.instIsTotal : IsTotal (Option (Int × Int)) keyLE := ⟨keyLE_total⟩

theorem keyLE_trans : ∀ a b c : Option (Int × Int),
    keyLE a b → keyLE b c → keyLE a c := by
  intro a b c
  rcases a with _ | ⟨y1, m1⟩ <;> rcases b with _ | ⟨y2, m2⟩ <;>
    rcases c with _ | ⟨y3, m3⟩ <;> (simp [keyLE]; try omega)

instance keyLE.instIsTrans : IsTrans (Option (Int × Int)) keyLE := ⟨keyLE_trans⟩

theorem groupTotal_erase_other (v : List Row) (k k' : Option (Int × Int))
    (hkk : ¬ k' = k) :
    groupTotal (v.filter (fun r => !(rowMonthKey r == k))) k' = groupTotal v k' := by
  unfold groupTotal
  rw [List.filter_filter]
  congr 2
  apply List.filter_congr
  intro r _
  by_cases h : rowMonthKey r = k'
  · simp [h, hkk]
  · simp [h]

theorem sum_over_keys (ks : List (Option (Int × Int))) (v : List Row)
    (hnd : ks.Nodup) (hcov : ∀ r ∈ v, rowMonthKey r ∈ ks) :
    (ks.map (groupTotal v)).sum = (v.map Row.price).sum := by
  induction ks generalizing v with
  | nil =>
    rcases v with _ | ⟨r, v⟩
    · rfl
    · exact absurd (hcov r (List.mem_cons_self r v)) (List.not_mem_nil _)
  | cons k ks ih =>
    have hknotin := (List.nodup_cons.mp hnd).1
    have hnd' := (List.nodup_cons.mp hnd).2
    have hsplit : (v.map Row.price).sum
        = ((v.filter (fun r => rowMonthKey r == k)).map Row.price).sum
          + ((v.filter (fun r => !(rowMonthKey r == k))).map Row.price).sum := by
      have hperm :=
        (List.filter_append_perm (fun r => rowMonthKey r == k) v).map Row.price
      have hsum := hperm.sum_eq
      rw [List.map_append, List.sum_append] at hsum
      exact hsum.symm
    rw [List.map_cons, List.sum_cons, hsplit]
    congr 1
    have hmapeq : ks.map (groupTotal v)
        = ks.map (groupTotal (v.filter (fun r => !(rowMonthKey r == k)))) := by
      apply List.map_congr_left
      intro k' hk'
      have hne : ¬ k' = k := fun heq => hknotin (heq ▸ hk')
      exact (groupTotal_erase_other v k k' hne).symm
    rw [hmapeq]
    apply ih _ hnd'
    intro r hr
    have hrv := List.mem_of_mem_filter hr
    have hcond := (List.mem_filter.mp hr).2
    have hne : ¬ rowMonthKey r = k := by
      intro heq
      simp [heq] at hcond
    rcases List.mem_cons.mp (hcov r hrv) with h | h
    · exact absurd h hne
    · exact h

/-- Claim C4: monthly revenue over a filtered view groups rows by
`(year, month)` with null-date rows excluded from every group (no `"NaT"`
group can appear, because the filter admits no null-date row), emits one
`(label, total)` pair per month key in ascending month order, and the
per-month totals sum to the total price over the non-null-date records
of the view. -/
theorem monthly_revenue_of_filtered_view (df : List Row) (c : Criteria) :
    none ∉ monthKeysSorted (filteredDf df c) ∧
    List.Sorted keyLE (monthKeysSorted (filteredDf df c)) ∧
    monthlySales (filteredDf df c)
      = (monthKeysSorted (filteredDf df c)).map
          (fun k => (monthLabel k, groupTotal (filteredDf df c) k)) ∧
    ((monthlySales (filteredDf df c)).map Prod.snd).sum
      = (((filteredDf df c).filter (fun r => r.dateCreated.isSome)).map
          Row.price).sum := by
  have hnonull : ∀ r ∈ filteredDf df c, ¬ rowMonthKey r = none := by
    intro r hr heq
    have hsome := mem_filteredDf_isSome hr
    rcases hd : r.dateCreated with _ | d
    · rw [hd] at hsome
      simp at hsome
    · rw [rowMonthKey, hd] at heq
      simp at heq
  refine ⟨?_, ?_, rfl, ?_⟩
  · intro hmem
    have h1 : (none : Option (Int × Int)) ∈ ((filteredDf df c).map rowMonthKey).dedup :=
      (List.perm_insertionSort keyLE _).mem_iff.mp hmem
    obtain ⟨r, hr, hkey⟩ := List.mem_map.mp (List.mem_dedup.mp h1)
    exact hnonull r hr hkey
  · exact List.sorted_insertionSort keyLE _
  · have hperm := List.perm_insertionSort keyLE ((filteredDf df c).map rowMonthKey).dedup
    have hnd : (monthKeysSorted (filteredDf df c)).Nodup :=
      hperm.symm.nodup (List.nodup_dedup _)
    have hcov : ∀ r ∈ filteredDf df c,
        rowMonthKey r ∈ monthKeysSorted (filteredDf df c) := by
      intro r hr
      exact hperm.symm.subset (List.mem_dedup.mpr (List.mem_map_of_mem rowMonthKey hr))
    have hfil : (filteredDf df c).filter (fun r => r.dateCreated.isSome)
        = filteredDf df c :=
      List.filter_eq_self.mpr (fun r hr => mem_filteredDf_isSome hr)
    rw [hfil]
    have hsnd : (monthlySales (filteredDf df c)).map Prod.snd
        = (monthKeysSorted (filteredDf df c)).map (groupTotal (filteredDf df c)) := by
      unfold monthlySales
      rw [List.map_map]
      rfl
    rw [hsnd]
    exact sum_over_keys _ _ hnd hcov
